import Mathlib

/-!
# Verification of the redco training-orchestration core

Shallow embedding of the redco repository (deployers/deployer.py,
trainers/utils.py, trainers/trainer.py) and proofs about its claims.

Numeric values carried by tensors are idealized as rationals (ℚ); PRNG keys
are idealized as nodes of the split tree (`jax.random.split` produces two
fresh children of a key, modelled as the injective pairing
`k ↦ (2k+1, 2k+2)`); the SPMD execution of a `jax.pmap`-ed function over the
replica axis is modelled denotationally as a function on per-replica vectors
`Fin n → α`, in which `jax.lax.pmean(x, 'batch')` denotes replacing every
replica's value by the mean over the axis.
-/

namespace Redco

/-! ## PRNG keys: ideal model of `jax.random.PRNGKey` / `jax.random.split` -/

/-- `jax.random.PRNGKey(seed)`: the root key of the split tree for `seed`. -/
def PRNGKey (seed : ℕ) : ℕ := seed

/-- `jax.random.split(key)`: two fresh child keys of `key`, modelled as the
injective pairing `k ↦ (2k+1, 2k+2)` (children of node `k` in an infinite
binary tree, so distinct keys never collide and neither child equals any
ancestor). -/
def randomSplit (k : ℕ) : ℕ × ℕ := (2 * k + 1, 2 * k + 2)

/-! ## Training state (trainers/utils.py, `class TrainState`)

`TrainState` extends `flax.training.train_state.TrainState`
(fields `step`, `params`, `opt_state`, `tx`, `apply_fn`) with a
`dropout_rng` array field and a non-pytree `lr_schedule_fn` field.
Tensor-valued leaves (`params`, gradients, optimizer state) are idealized
as single rational scalars: every claim proved here is about the plumbing
of these values, not about their inner array structure. -/

/-- An optax gradient transformation: `tx.update(grads, opt_state, params)`
returns `(updates, new_opt_state)`. -/
structure Optimizer where
  update : ℚ → ℚ → ℚ → ℚ × ℚ

/-- trainers/utils.py `class TrainState(train_state.TrainState)`. -/
structure TrainState where
  step : ℕ
  params : ℚ
  opt_state : ℚ
  dropout_rng : ℕ
  tx : Optimizer
  lr_schedule_fn : ℕ → ℚ

/-- `flax.training.train_state.TrainState.apply_gradients(grads, **kwargs)`:
`updates, new_opt_state = tx.update(grads, opt_state, params)`;
`new_params = optax.apply_updates(params, updates)` (elementwise addition);
returns `replace(step=step+1, params=new_params, opt_state=new_opt_state,
**kwargs)` — here with the `dropout_rng` keyword the source passes. -/
def TrainState.apply_gradients (s : TrainState) (grads : ℚ)
    (dropout_rng : ℕ) : TrainState :=
  let upd := s.tx.update grads s.opt_state s.params
  { s with
    step := s.step + 1
    params := s.params + upd.1
    opt_state := upd.2
    dropout_rng := dropout_rng }

/-! ## Step functions (trainers/utils.py) -/

/-- A batch: the collated field values, idealized as a list of rationals. -/
def Batch := List ℚ

/-- User loss function as invoked by trainers/utils.py:
`loss_fn(state=state, params=params, batch=batch, train=...)`. -/
def LossFn := TrainState → ℚ → Batch → Bool → ℚ

/-- The substrate's autodiff (`jax.grad` inside `jax.value_and_grad`):
given a scalar function of the parameters, returns its gradient at a point.
External collaborator (jax), passed in as an oracle. -/
def GradOf := (ℚ → ℚ) → ℚ → ℚ

/-- trainers/utils.py `default_loss_and_grads(state, batch, loss_fn)`:
`compute_loss(params) = loss_fn(state, params, batch, train=True)`;
returns `jax.value_and_grad(compute_loss)(state.params)`. -/
def default_loss_and_grads (gradOf : GradOf) (state : TrainState)
    (batch : Batch) (loss_fn : LossFn) : ℚ × ℚ :=
  let compute_loss := fun params => loss_fn state params batch true
  (compute_loss state.params, gradOf compute_loss state.params)

/-- `jax.lax.pmean(x, 'batch')`: the mean of `x` over the replica axis. -/
def pmean (n : ℕ) (xs : Fin n → ℚ) : ℚ := (∑ i, xs i) / n

/-- The metrics dict `{'loss': …, 'step': …, 'lr': …}` emitted by
`default_train_step` (`step` as a numeric value, as `lax.pmean` treats it). -/
structure Metrics where
  loss : ℚ
  step : ℚ
  lr : ℚ

/-- `jax.lax.pmean(metrics, axis_name='batch')` applied to the metrics dict:
elementwise mean over the replica axis. -/
def pmeanMetrics (n : ℕ) (ms : Fin n → Metrics) : Metrics :=
  { loss := pmean n (fun i => (ms i).loss)
    step := pmean n (fun i => (ms i).step)
    lr := pmean n (fun i => (ms i).lr) }

/-- trainers/utils.py `default_train_step(state, batch, loss_fn, under_pmap)`,
denoted as the SPMD execution over `n` replicas (under `jax.pmap` each
replica `i` holds `states i` and `batches i`; with `under_pmap = false` and
`n = 1` this is the single logical pjit call):
1. `loss, grad = default_loss_and_grads(state, batch, loss_fn)`;
2. `if under_pmap: grad = jax.lax.pmean(grad, 'batch')`;
3. `dropout_rng, new_dropout_rng = jax.random.split(state.dropout_rng)`;
4. `new_state = state.apply_gradients(grads=grad, dropout_rng=new_dropout_rng)`;
5. `metrics = {'loss': loss, 'step': state.step, 'lr': state.lr_schedule_fn(state.step)}`,
   pmean-ed across the axis when `under_pmap`. -/
def default_train_step (gradOf : GradOf) (loss_fn : LossFn) (n : ℕ)
    (under_pmap : Bool) (states : Fin n → TrainState)
    (batches : Fin n → Batch) :
    (Fin n → TrainState) × (Fin n → Metrics) :=
  let lg := fun i => default_loss_and_grads gradOf (states i) (batches i) loss_fn
  let rawGrad := fun i => (lg i).2
  let grad := if under_pmap then fun _ => pmean n rawGrad else rawGrad
  let new_dropout_rng := fun i => (randomSplit (states i).dropout_rng).2
  let new_state := fun i =>
    (states i).apply_gradients (grad i) (new_dropout_rng i)
  let rawMetrics := fun i =>
    { loss := (lg i).1
      step := ((states i).step : ℚ)
      lr := (states i).lr_schedule_fn (states i).step : Metrics }
  let metrics :=
    if under_pmap then fun _ => pmeanMetrics n rawMetrics else rawMetrics
  (new_state, metrics)

/-- trainers/utils.py `default_eval_step(state, batch, loss_fn, under_pmap)`,
denoted over `n` replicas: `loss = loss_fn(state, state.params, batch,
train=False)`; `metrics = {'loss': loss}`, pmean-ed when `under_pmap`;
returns the metrics only (no state is produced). -/
def default_eval_step (loss_fn : LossFn) (n : ℕ) (under_pmap : Bool)
    (states : Fin n → TrainState) (batches : Fin n → Batch) :
    Fin n → ℚ :=
  let rawLoss := fun i =>
    loss_fn (states i) (states i).params (batches i) false
  if under_pmap then fun _ => pmean n rawLoss else rawLoss

/-! ## Jax substrate environment and device mesh -/

/-- The jax process environment: `jax.local_device_count()` and
`jax.process_count()`. -/
structure JaxEnv where
  local_device_count : ℕ
  process_count : ℕ

/-- A logical device mesh. `devicesShape0` is `mesh.devices.shape[0]`, the
size of the first axis of the device grid (the only mesh attribute the code
under src/ reads). -/
structure Mesh where
  devicesShape0 : ℕ

/-! ## Deployer (deployers/deployer.py) -/

/-- deployers/deployer.py `class Deployer`: `_rng` (a PRNG key) and `_mesh`
(`None` means simple replication). -/
structure Deployer where
  rng : ℕ
  mesh : Option Mesh

/-- `Deployer.__init__(jax_seed, n_model_shards=1)`:
`self._rng = jax.random.PRNGKey(seed=jax_seed)`;
`self._mesh = get_mesh(n_model_shards=n_model_shards)`.
`get_mesh` lives in model_parallel_utils/mesh_utils.py, which is not under
src/, so the resolved mesh is taken here as a parameter. -/
def Deployer.init (jax_seed : ℕ) (mesh : Option Mesh) : Deployer :=
  { rng := PRNGKey jax_seed, mesh := mesh }

/-- `Deployer.gen_rng()`: `self._rng, new_rng = jax.random.split(self._rng);
return new_rng` — the first child replaces the internal state, the second
child is returned. -/
def Deployer.gen_rng (d : Deployer) : Deployer × ℕ :=
  ({ d with rng := (randomSplit d.rng).1 }, (randomSplit d.rng).2)

/-- The deployer state after `n` successive `gen_rng()` calls. -/
def Deployer.genRngCalls (d : Deployer) : ℕ → Deployer
  | 0 => d
  | n + 1 => (d.genRngCalls n).gen_rng.1

/-- The key returned by the `(n+1)`-st `gen_rng()` call (0-indexed `n`). -/
def Deployer.genRngNth (d : Deployer) (n : ℕ) : ℕ :=
  (d.genRngCalls n).gen_rng.2

/-- Modelled from the spec: `get_host_batch_size` (in
model_parallel_utils/mesh_utils.py, absent from src/) — per spec §4.6 /
§4.2, the local batch size is this host's (process's) share of the global
batch size. -/
def get_host_batch_size (env : JaxEnv) (global_batch_size : ℕ)
    (_mesh : Mesh) : ℕ :=
  global_batch_size / env.process_count

/-- deployers/deployer.py `Deployer.process_batch_size(per_device_batch_size)`:
with no mesh, `batch_size = per_device_batch_size * jax.local_device_count()`
and `global_batch_size = batch_size * jax.process_count()`; with a mesh,
`global_batch_size = per_device_batch_size * mesh.devices.shape[0]` and
`batch_size = get_host_batch_size(global_batch_size, mesh)`.
Returns `(batch_size, global_batch_size)`. -/
def Deployer.process_batch_size (d : Deployer) (env : JaxEnv)
    (per_device_batch_size : ℕ) : ℕ × ℕ :=
  match d.mesh with
  | none =>
      let batch_size := per_device_batch_size * env.local_device_count
      (batch_size, batch_size * env.process_count)
  | some m =>
      let global_batch_size := per_device_batch_size * m.devicesShape0
      (get_host_batch_size env global_batch_size m, global_batch_size)

/-! ## Array values and replication (flax.jax_utils) -/

/-- A pytree-leaf array value: a scalar or a stack of values along an axis. -/
inductive NDArr where
  | scalar : ℚ → NDArr
  | dim : List NDArr → NDArr

/-- `flax.jax_utils.replicate(x)`: stacks `x` into a new leading axis with
one copy per local device. -/
def replicate (local_device_count : ℕ) (x : NDArr) : NDArr :=
  .dim (List.replicate local_device_count x)

/-- `flax.jax_utils.unreplicate(x)`: takes the first entry along the leading
device axis (`x[0]`); undefined (`none`) when there is no leading axis or it
is empty. -/
def unreplicate : NDArr → Option NDArr
  | .dim (x :: _) => some x
  | _ => none

/-- deployers/deployer.py `Deployer.process_to_run_model(x)`:
`replicate(x)` when `self._mesh is None`, else `x` unchanged. -/
def Deployer.process_to_run_model (d : Deployer) (env : JaxEnv)
    (x : NDArr) : NDArr :=
  match d.mesh with
  | none => replicate env.local_device_count x
  | some _ => x

/-- deployers/deployer.py `Deployer.process_to_deliver(x)`:
`unreplicate(x)` when `self._mesh is None`, else `x` unchanged. -/
def Deployer.process_to_deliver (d : Deployer) (x : NDArr) : Option NDArr :=
  match d.mesh with
  | none => unreplicate x
  | some _ => some x

/-- `jax.pmap(step_fn)` applied to inputs stacked along the leading device
axis: maps `step_fn` over that axis; undefined on an unstacked input. -/
def pmapApply (step_fn : NDArr → NDArr) : NDArr → Option NDArr
  | .dim xs => some (.dim (xs.map step_fn))
  | .scalar _ => none

/-- Modelled from the spec: `Deployer.run_model_step(step_fn, input_args)`
is not under src/ (only its caller `Trainer.train` is). Per spec §4.6 it
executes `step_fn` either as a replicated parallel map (no mesh) or as a
mesh-context single logical call (sharded). -/
def Deployer.run_model_step (d : Deployer) (step_fn : NDArr → NDArr)
    (input_args : NDArr) : Option NDArr :=
  match d.mesh with
  | none => pmapApply step_fn input_args
  | some _ => some (step_fn input_args)

/-! ## Trainer (trainers/trainer.py) -/

/-- The trainer's mutable fields relevant to the evaluation loop: under the
no-mesh path `self._state` is a state replicated over the `n` local devices
(`create_train_state` calls `replicate(self._state)`). -/
structure TrainerSt (n : ℕ) where
  state : Fin n → TrainState

/-- `Deployer.process_to_deliver` applied to a pmap-replicated scalar metric:
`unreplicate` takes replica 0's entry. -/
def deliverMetric (n : ℕ) (ms : Fin n → ℚ) : ℚ :=
  if h : 0 < n then ms ⟨0, h⟩ else 0

/-- `np.mean(losses).item()`. -/
def npMean (xs : List ℚ) : ℚ := xs.sum / xs.length

/-- trainers/trainer.py `Trainer.eval_loss(examples, per_device_batch_size)`,
its batch loop: for each batch, `metrics = run_model_step(self._p_eval_step,
(self._state, batch))`; `metrics = process_to_deliver(metrics)`;
`losses.append(metrics['loss'])`. The loop body never assigns
`self._state`; the trainer record is threaded through unchanged. -/
def Trainer.eval_loss_losses (loss_fn : LossFn) {n : ℕ} (under_pmap : Bool) :
    TrainerSt n → List (Fin n → Batch) → TrainerSt n × List ℚ
  | tr, [] => (tr, [])
  | tr, b :: rest =>
      let metrics := default_eval_step loss_fn n under_pmap tr.state b
      let loss := deliverMetric n metrics
      let next := Trainer.eval_loss_losses loss_fn under_pmap tr rest
      (next.1, loss :: next.2)

/-- trainers/trainer.py `Trainer.eval_loss`: runs the batch loop and
`return np.mean(losses).item()`. -/
def Trainer.eval_loss (loss_fn : LossFn) {n : ℕ} (under_pmap : Bool)
    (tr : TrainerSt n) (batches : List (Fin n → Batch)) :
    TrainerSt n × ℚ :=
  let res := Trainer.eval_loss_losses loss_fn under_pmap tr batches
  (res.1, npMean res.2)

/-! ## Trainer.fit epoch loop (trainers/trainer.py)

`fit` is modelled generically in the trainer state `σ`; the training pass
(`self.train(...)`), the evaluation-loss pass (`self.eval_loss(...)`), the
predictor (`eval_predictor.predict(...)`) and the metric function are the
respective callables, and per-device batch sizes are absorbed into them.
`json.dump` succeeding or raising is modelled by an `Option`-valued
serializer. Examples and predictions are idealized as rationals. -/

/-- `train_examples` may be a list or a callable of `epoch_idx`
(trainer.py lines 167–170). -/
inductive TrainExamples where
  | ofList : List ℚ → TrainExamples
  | ofFn : (ℕ → List ℚ) → TrainExamples

/-- `epoch_train_examples`: the list itself, or `train_examples(epoch_idx)`. -/
def TrainExamples.get : TrainExamples → ℕ → List ℚ
  | .ofList l, _ => l
  | .ofFn f, i => f i

/-- Which serialized form of the epoch's evaluation results was written:
`outputs_epoch{i}.json` or the `outputs_epoch{i}.pkl` fallback. -/
inductive DumpOutcome where
  | wroteJson
  | wrotePickle
deriving DecidableEq

/-- Messages the epoch loop emits through `self._deployer.logger.info`. -/
inductive LogMsg where
  | noEvalInfo
  | epochResults (metrics : List ℚ)
deriving DecidableEq

/-- The observable record of one epoch of `Trainer.fit`. -/
structure EpochRecord where
  logs : List LogMsg
  dump : Option DumpOutcome
deriving DecidableEq

/-- trainers/trainer.py `Trainer.fit`, body of one epoch (lines 166–215):
train on the epoch's examples; if `eval_examples is None` log the
informational message; otherwise build `eval_metrics` (loss when
`eval_loss`), and when a predictor is supplied compute predictions, zip
them with the examples, `try: json.dump(...) except: pickle.dump(...)`,
optionally apply `eval_metric_fn`, and log the epoch results. -/
def Trainer.fitEpoch {σ : Type}
    (trainEpoch : σ → List ℚ → σ)
    (eval_loss_pass : σ → List ℚ → ℚ)
    (json_dump : List (ℚ × ℚ) → Option Unit)
    (train_examples : TrainExamples)
    (eval_examples : Option (List ℚ))
    (eval_loss : Bool)
    (eval_predictor : Option (σ → List ℚ → List ℚ))
    (eval_metric_fn : Option (List (ℚ × ℚ) → List ℚ))
    (epoch_idx : ℕ) (st : σ) : σ × EpochRecord :=
  let st := trainEpoch st (train_examples.get epoch_idx)
  match eval_examples with
  | none => (st, { logs := [.noEvalInfo], dump := none })
  | some evs =>
      let m0 : List ℚ := []
      let m1 := if eval_loss then m0 ++ [eval_loss_pass st evs] else m0
      match eval_predictor with
      | none => (st, { logs := [.epochResults m1], dump := none })
      | some predict =>
          let preds := predict st evs
          let eval_results := evs.zip preds
          let dump :=
            match json_dump eval_results with
            | some _ => DumpOutcome.wroteJson
            | none => DumpOutcome.wrotePickle
          let m2 :=
            match eval_metric_fn with
            | none => m1
            | some f => m1 ++ f eval_results
          (st, { logs := [.epochResults m2], dump := some dump })

/-- The epoch loop of `Trainer.fit` from `epoch_idx` for `k` more epochs. -/
def Trainer.fitFrom {σ : Type}
    (trainEpoch : σ → List ℚ → σ)
    (eval_loss_pass : σ → List ℚ → ℚ)
    (json_dump : List (ℚ × ℚ) → Option Unit)
    (train_examples : TrainExamples)
    (eval_examples : Option (List ℚ))
    (eval_loss : Bool)
    (eval_predictor : Option (σ → List ℚ → List ℚ))
    (eval_metric_fn : Option (List (ℚ × ℚ) → List ℚ)) :
    ℕ → ℕ → σ → σ × List EpochRecord
  | 0, _, st => (st, [])
  | k + 1, epoch_idx, st =>
      let this := Trainer.fitEpoch trainEpoch eval_loss_pass json_dump
        train_examples eval_examples eval_loss eval_predictor eval_metric_fn
        epoch_idx st
      let rest := Trainer.fitFrom trainEpoch eval_loss_pass json_dump
        train_examples eval_examples eval_loss eval_predictor eval_metric_fn
        k (epoch_idx + 1) this.1
      (rest.1, this.2 :: rest.2)

/-- trainers/trainer.py `Trainer.fit(train_examples, per_device_batch_size,
n_epochs, eval_examples=None, ...)`: `for epoch_idx in range(n_epochs)` run
one epoch. Returns the final trainer state and one record per epoch. -/
def Trainer.fit {σ : Type}
    (trainEpoch : σ → List ℚ → σ)
    (eval_loss_pass : σ → List ℚ → ℚ)
    (json_dump : List (ℚ × ℚ) → Option Unit)
    (n_epochs : ℕ)
    (train_examples : TrainExamples)
    (eval_examples : Option (List ℚ))
    (eval_loss : Bool)
    (eval_predictor : Option (σ → List ℚ → List ℚ))
    (eval_metric_fn : Option (List (ℚ × ℚ) → List ℚ))
    (st : σ) : σ × List EpochRecord :=
  Trainer.fitFrom trainEpoch eval_loss_pass json_dump train_examples
    eval_examples eval_loss eval_predictor eval_metric_fn n_epochs 0 st

/-! ## Call-signature facts (trainers/utils.py vs trainers/trainer.py)

Recorded verbatim from the source, to settle the claim that the train step
has the signature `train_step(rng, state, batch)`. -/

/-- The parameter names of trainers/utils.py
`default_train_step(state, batch, loss_fn, under_pmap)`, in order. -/
def default_train_step_param_names : List String :=
  ["state", "batch", "loss_fn", "under_pmap"]

/-- The keyword arguments `Trainer.setup_running_step` binds onto
`default_train_step` via `functools.partial` (trainer.py lines 78–82). -/
def setup_running_step_train_kwargs : List String :=
  ["loss_fn", "lr_schedule_fn", "under_pmap"]

/-- The positional argument tuple `Trainer.train` passes to the compiled
train step (trainer.py line 128): `(train_rng, self._state, batch)`. -/
def trainer_train_step_args : List String :=
  ["train_rng", "state", "batch"]

/-! ## Concrete instances used to exercise the definitions -/

/-- A concrete optimizer: negated-gradient updates, a step-counting state. -/
def exOptimizer : Optimizer := { update := fun g o _ => (-g, o + 1) }

/-- A concrete training state. -/
def exState : TrainState :=
  { step := 3, params := 5, opt_state := 2, dropout_rng := 4,
    tx := exOptimizer, lr_schedule_fn := fun s => (s : ℚ) / 10 }

/-- Two replicas holding the identical state. -/
def exStates2 : Fin 2 → TrainState := fun _ => exState

/-- A concrete autodiff oracle (forward difference at unit step). -/
def exGradOf : GradOf := fun f p => f (p + 1) - f p

/-- A concrete loss: parameters times the batch sum. -/
def exLossFn : LossFn := fun _ p b _ => p * b.sum

/-- Two different per-replica batches. -/
def exBatches2 : Fin 2 → Batch := fun i => [((i : ℕ) : ℚ) + 1]

/-- A concrete per-epoch training pass on a rational trainer-state summary. -/
def exTrainEpoch : ℚ → List ℚ → ℚ := fun s _ => s + 1

/-- A concrete evaluation-loss pass. -/
def exEvalLossPass : ℚ → List ℚ → ℚ := fun _ _ => 0

/-- A serializer on which `json.dump` always raises. -/
def exJsonFail : List (ℚ × ℚ) → Option Unit := fun _ => none

/-- A serializer on which `json.dump` always succeeds. -/
def exJsonOk : List (ℚ × ℚ) → Option Unit := fun _ => some ()

/-- A concrete predictor. -/
def exPredict : ℚ → List ℚ → List ℚ := fun _ evs => evs.map (· + 1)

/-- A concrete (constant) step function over array values. -/
def exStepFn : NDArr → NDArr := fun _ => .scalar 7

/-! ## Helper lemmas -/

/-- The internal RNG state after `n` `gen_rng()` calls, in closed form. -/
theorem genRngCalls_rng (d : Deployer) (n : ℕ) :
    (d.genRngCalls n).rng + 1 = 2 ^ n * (d.rng + 1) := by
  induction n with
  | zero => simp [Deployer.genRngCalls]
  | succ n ih =>
      have hstep : (d.genRngCalls (n + 1)).rng =
          2 * (d.genRngCalls n).rng + 1 := rfl
      rw [hstep]
      have h2 : 2 * (d.genRngCalls n).rng + 1 + 1 =
          2 * ((d.genRngCalls n).rng + 1) := by ring
      rw [h2, ih, pow_succ]
      ring

/-- `Trainer.fitFrom` produces exactly one epoch record per epoch. -/
theorem fitFrom_length {σ : Type}
    (trainEpoch : σ → List ℚ → σ) (eval_loss_pass : σ → List ℚ → ℚ)
    (json_dump : List (ℚ × ℚ) → Option Unit)
    (train_examples : TrainExamples) (eval_examples : Option (List ℚ))
    (eval_loss_flag : Bool) (eval_predictor : Option (σ → List ℚ → List ℚ))
    (eval_metric_fn : Option (List (ℚ × ℚ) → List ℚ)) :
    ∀ (k idx : ℕ) (st : σ),
      (Trainer.fitFrom trainEpoch eval_loss_pass json_dump train_examples
        eval_examples eval_loss_flag eval_predictor eval_metric_fn
        k idx st).2.length = k := by
  intro k
  induction k with
  | zero => intro idx st; rfl
  | succ k ih =>
      intro idx st
      simp only [Trainer.fitFrom, List.length_cons]
      rw [ih]

/-- With `eval_examples = None`, every epoch record of the `fit` loop is the
informational log and no dump. -/
theorem fitFrom_none_records {σ : Type}
    (trainEpoch : σ → List ℚ → σ) (eval_loss_pass : σ → List ℚ → ℚ)
    (json_dump : List (ℚ × ℚ) → Option Unit)
    (train_examples : TrainExamples)
    (eval_loss_flag : Bool) (eval_predictor : Option (σ → List ℚ → List ℚ))
    (eval_metric_fn : Option (List (ℚ × ℚ) → List ℚ)) :
    ∀ (k idx : ℕ) (st : σ),
      (Trainer.fitFrom trainEpoch eval_loss_pass json_dump train_examples
        none eval_loss_flag eval_predictor eval_metric_fn k idx st).2 =
        List.replicate k { logs := [LogMsg.noEvalInfo], dump := none } := by
  intro k
  induction k with
  | zero => intro idx st; rfl
  | succ k ih =>
      intro idx st
      simp only [Trainer.fitFrom]
      rw [List.replicate_succ]
      exact congrArg₂ List.cons rfl (ih _ _)

/-- The key returned by the `(n+1)`-st `gen_rng()` call, in closed form. -/
theorem genRngNth_eq (d : Deployer) (n : ℕ) :
    d.genRngNth n = 2 ^ (n + 1) * (d.rng + 1) := by
  have hval : d.genRngNth n = 2 * (d.genRngCalls n).rng + 2 := rfl
  rw [hval]
  have h2 : 2 * (d.genRngCalls n).rng + 2 =
      2 * ((d.genRngCalls n).rng + 1) := by ring
  rw [h2, genRngCalls_rng, pow_succ]
  ring

/-! ## Claim theorems -/

/-- **C3**: Every call to `Deployer.gen_rng` splits the process-wide RNG
state and returns the fresh child key: on one Deployer no two calls ever
return the same key (the sequence of returned keys is injective), and two
Deployers constructed with the same `jax_seed` (hence the same internal key)
produce the same sequence of keys call for call. -/
theorem gen_rng_unique_and_seed_deterministic :
    (∀ (d : Deployer) (m n : ℕ), d.genRngNth m = d.genRngNth n → m = n) ∧
    (∀ (d₁ d₂ : Deployer), d₁.rng = d₂.rng →
      ∀ k, d₁.genRngNth k = d₂.genRngNth k) := by
  constructor
  · intro d m n h
    rw [genRngNth_eq, genRngNth_eq] at h
    have hpos : 0 < d.rng + 1 := Nat.succ_pos _
    have hpow : (2 : ℕ) ^ (m + 1) = 2 ^ (n + 1) :=
      Nat.eq_of_mul_eq_mul_right hpos h
    have := Nat.pow_right_injective (le_refl 2) hpow
    omega
  · intro d₁ d₂ h k
    rw [genRngNth_eq, genRngNth_eq, h]

/-- Witness for the C3 theorem, at two concrete deployers built from the
same seed (with and without a mesh) and at a concrete repeated call. -/
theorem gen_rng_unique_and_seed_deterministic_witness :
    (1 : ℕ) = 1 ∧
    (Deployer.init 7 none).genRngNth 3 =
      (Deployer.init 7 (some ⟨4⟩)).genRngNth 3 :=
  ⟨gen_rng_unique_and_seed_deterministic.1 (Deployer.init 7 none) 1 1 rfl,
   gen_rng_unique_and_seed_deterministic.2
     (Deployer.init 7 none) (Deployer.init 7 (some ⟨4⟩)) rfl 3⟩

/-- **C1**: In a train step executed under device replication (`mesh is
None`, `under_pmap = true`), the gradients of the user loss function are
averaged across the replica axis with an all-reduce mean (`pmean`) before the
optimizer update is applied: every replica's post-step state is the shared
starting state updated with the mean gradient, so replicas starting from
identical states obtain identical post-step parameters. -/
theorem train_step_allreduce_mean_identical_replicas
    (gradOf : GradOf) (loss_fn : LossFn) (n : ℕ)
    (states : Fin n → TrainState) (batches : Fin n → Batch)
    (s0 : TrainState) (h : ∀ i, states i = s0) :
    (∀ i, (default_train_step gradOf loss_fn n true states batches).1 i =
      s0.apply_gradients
        (pmean n (fun j =>
          (default_loss_and_grads gradOf (states j) (batches j) loss_fn).2))
        (randomSplit s0.dropout_rng).2) ∧
    (∀ i j, (default_train_step gradOf loss_fn n true states batches).1 i =
      (default_train_step gradOf loss_fn n true states batches).1 j) := by
  have key : ∀ i, (default_train_step gradOf loss_fn n true states batches).1 i =
      s0.apply_gradients
        (pmean n (fun j =>
          (default_loss_and_grads gradOf (states j) (batches j) loss_fn).2))
        (randomSplit s0.dropout_rng).2 := by
    intro i
    show (states i).apply_gradients
        (pmean n (fun j =>
          (default_loss_and_grads gradOf (states j) (batches j) loss_fn).2))
        (randomSplit (states i).dropout_rng).2 = _
    rw [h i]
  exact ⟨key, fun i j => (key i).trans (key j).symm⟩

/-- Witness for the C1 theorem: two replicas starting from the identical
concrete state, fed different batches. -/
theorem train_step_allreduce_mean_identical_replicas_witness :
    (∀ i : Fin 2, exStates2 i = exState) ∧
    ((∀ i, (default_train_step exGradOf exLossFn 2 true exStates2 exBatches2).1 i =
      exState.apply_gradients
        (pmean 2 (fun j =>
          (default_loss_and_grads exGradOf (exStates2 j) (exBatches2 j) exLossFn).2))
        (randomSplit exState.dropout_rng).2) ∧
    (∀ i j, (default_train_step exGradOf exLossFn 2 true exStates2 exBatches2).1 i =
      (default_train_step exGradOf exLossFn 2 true exStates2 exBatches2).1 j)) :=
  ⟨fun _ => rfl,
   train_step_allreduce_mean_identical_replicas exGradOf exLossFn 2
     exStates2 exBatches2 exState (fun _ => rfl)⟩

/-- **C4**: Applying a training update returns a new state whose step
counter is the input state's step plus one, whose optimizer internal state
and parameters are produced by the optimizer's update rule
(`updates, new_opt_state = tx.update(...)`; `params := params + updates`),
and whose RNG is the fresh second child of splitting the old one (so it
differs from the old key); the result is a distinct state value, and the
input state — a pure value in this embedding — is never mutated in place. -/
theorem train_update_fresh_state
    (gradOf : GradOf) (loss_fn : LossFn) (n : ℕ) (under_pmap : Bool)
    (states : Fin n → TrainState) (batches : Fin n → Batch) (i : Fin n) :
    ((default_train_step gradOf loss_fn n under_pmap states batches).1 i).step
        = (states i).step + 1 ∧
    (∃ g,
      ((default_train_step gradOf loss_fn n under_pmap states batches).1 i).opt_state
          = ((states i).tx.update g (states i).opt_state (states i).params).2 ∧
      ((default_train_step gradOf loss_fn n under_pmap states batches).1 i).params
          = (states i).params +
            ((states i).tx.update g (states i).opt_state (states i).params).1) ∧
    ((default_train_step gradOf loss_fn n under_pmap states batches).1 i).dropout_rng
        = (randomSplit (states i).dropout_rng).2 ∧
    ((default_train_step gradOf loss_fn n under_pmap states batches).1 i).dropout_rng
        ≠ (states i).dropout_rng ∧
    (default_train_step gradOf loss_fn n under_pmap states batches).1 i
        ≠ states i := by
  refine ⟨rfl,
    ⟨(if under_pmap then
        (fun _ => pmean n (fun j =>
          (default_loss_and_grads gradOf (states j) (batches j) loss_fn).2))
      else
        (fun j =>
          (default_loss_and_grads gradOf (states j) (batches j) loss_fn).2)) i,
      rfl, rfl⟩,
    rfl, ?_, ?_⟩
  · show 2 * (states i).dropout_rng + 2 ≠ (states i).dropout_rng
    omega
  · intro hEq
    have hrng : 2 * (states i).dropout_rng + 2 = (states i).dropout_rng :=
      congrArg TrainState.dropout_rng hEq
    omega

/-- **C5** (evidence of the code bug): the train step defined in
trainers/utils.py does not take an RNG key as its first argument — its first
parameter is `state` and it has no `rng` parameter at all — while
`Trainer.train` passes `(train_rng, self._state, batch)` positionally and
`Trainer.setup_running_step` binds an `lr_schedule_fn` keyword that
`default_train_step` does not accept, so the call raises a `TypeError`. -/
theorem train_step_signature_mismatch :
    default_train_step_param_names.head? = some "state" ∧
    "rng" ∉ default_train_step_param_names ∧
    trainer_train_step_args.head? = some "train_rng" ∧
    "lr_schedule_fn" ∈ setup_running_step_train_kwargs ∧
    "lr_schedule_fn" ∉ default_train_step_param_names := by
  refine ⟨rfl, by decide, rfl, by decide, by decide⟩

/-- **C6**: The eval step computes the loss only and returns metrics without
producing a new state (its codomain contains no state): the trainer's state
across a whole `eval_loss` pass is unchanged, the eval metrics under
replication are the all-reduce mean (`pmean`) of the per-replica losses
(computed at the unchanged parameters with `train=False`), and this is the
same averaging the train step applies to its metrics. -/
theorem eval_step_stateless_pmean
    (loss_fn : LossFn) (n : ℕ) (under_pmap : Bool) (tr : TrainerSt n)
    (batches : List (Fin n → Batch)) :
    (Trainer.eval_loss loss_fn under_pmap tr batches).1 = tr ∧
    (∀ (b : Fin n → Batch) (i : Fin n),
      default_eval_step loss_fn n true tr.state b i =
        pmean n (fun j =>
          loss_fn (tr.state j) (tr.state j).params (b j) false)) ∧
    (∀ (gradOf : GradOf) (states : Fin n → TrainState)
        (bs : Fin n → Batch) (i : Fin n),
      ((default_train_step gradOf loss_fn n true states bs).2 i).loss =
        pmean n (fun j =>
          (default_loss_and_grads gradOf (states j) (bs j) loss_fn).1)) := by
  refine ⟨?_, fun b i => rfl, fun gradOf states bs i => rfl⟩
  show (Trainer.eval_loss_losses loss_fn under_pmap tr batches).1 = tr
  induction batches with
  | nil => rfl
  | cons b rest ih => exact ih

/-- **C7**: `process_batch_size(per_device_batch_size)` returns
`(local_batch_size, global_batch_size)`: with no mesh the local size is
`per_device_batch_size * local_device_count` and the global size is the
local size times the process count; with a mesh the global size is
`per_device_batch_size * mesh.devices.shape[0]` and the local size is this
host's share of it (`global / process_count`). -/
theorem process_batch_size_local_global
    (env : JaxEnv) (d₁ d₂ : Deployer) (m : Mesh) (p : ℕ)
    (h₁ : d₁.mesh = none) (h₂ : d₂.mesh = some m) :
    d₁.process_batch_size env p =
      (p * env.local_device_count,
       p * env.local_device_count * env.process_count) ∧
    (d₂.process_batch_size env p).2 = p * m.devicesShape0 ∧
    (d₂.process_batch_size env p).1 =
      (p * m.devicesShape0) / env.process_count := by
  refine ⟨?_, ?_, ?_⟩ <;>
    simp [Deployer.process_batch_size, h₁, h₂, get_host_batch_size]

/-- Witness for the C7 theorem: 8 local devices, 2 processes,
per-device batch size 3, and a mesh whose first axis has size 4. -/
theorem process_batch_size_local_global_witness :
    (Deployer.init 0 none).mesh = none ∧
    (Deployer.init 0 (some ⟨4⟩)).mesh = some ⟨4⟩ ∧
    ((Deployer.init 0 none).process_batch_size ⟨8, 2⟩ 3 =
       (3 * 8, 3 * 8 * 2) ∧
     ((Deployer.init 0 (some ⟨4⟩)).process_batch_size ⟨8, 2⟩ 3).2 = 3 * 4 ∧
     ((Deployer.init 0 (some ⟨4⟩)).process_batch_size ⟨8, 2⟩ 3).1 =
       (3 * 4) / 2) :=
  ⟨rfl, rfl,
   process_batch_size_local_global ⟨8, 2⟩ (Deployer.init 0 none)
     (Deployer.init 0 (some ⟨4⟩)) ⟨4⟩ 3 rfl rfl⟩

/-- **C8**: In an epoch in which an eval predictor is supplied, if JSON
serialization of the evaluation results raises, the results are written by
the pickle fallback instead and the epoch loop still runs to completion
(one record per epoch); if JSON serialization succeeds, no binary fallback
occurs. -/
theorem eval_results_serialization_fallback {σ : Type}
    (trainEpoch : σ → List ℚ → σ) (eval_loss_pass : σ → List ℚ → ℚ)
    (json_dump : List (ℚ × ℚ) → Option Unit) (n_epochs : ℕ)
    (train_examples : TrainExamples) (evs : List ℚ) (eval_loss_flag : Bool)
    (predict : σ → List ℚ → List ℚ)
    (eval_metric_fn : Option (List (ℚ × ℚ) → List ℚ))
    (epoch_idx : ℕ) (st st0 : σ) :
    (json_dump (evs.zip
        (predict (trainEpoch st (train_examples.get epoch_idx)) evs)) = none →
      (Trainer.fitEpoch trainEpoch eval_loss_pass json_dump train_examples
        (some evs) eval_loss_flag (some predict) eval_metric_fn
        epoch_idx st).2.dump = some DumpOutcome.wrotePickle) ∧
    (json_dump (evs.zip
        (predict (trainEpoch st (train_examples.get epoch_idx)) evs)) ≠ none →
      (Trainer.fitEpoch trainEpoch eval_loss_pass json_dump train_examples
        (some evs) eval_loss_flag (some predict) eval_metric_fn
        epoch_idx st).2.dump = some DumpOutcome.wroteJson) ∧
    (Trainer.fit trainEpoch eval_loss_pass json_dump n_epochs train_examples
      (some evs) eval_loss_flag (some predict) eval_metric_fn
      st0).2.length = n_epochs := by
  refine ⟨?_, ?_, ?_⟩
  · intro h
    simp [Trainer.fitEpoch, h]
  · intro h
    obtain ⟨u, hu⟩ := Option.ne_none_iff_exists'.mp h
    simp [Trainer.fitEpoch, hu]
  · exact fitFrom_length trainEpoch eval_loss_pass json_dump train_examples
      (some evs) eval_loss_flag (some predict) eval_metric_fn n_epochs 0 st0

/-- Witness for the C8 theorem: one epoch run with an always-failing JSON
serializer (pickle fallback taken), one with an always-succeeding one (no
fallback), and a 2-epoch loop that runs to completion despite the failing
serializer. -/
theorem eval_results_serialization_fallback_witness :
    (Trainer.fitEpoch exTrainEpoch exEvalLossPass exJsonFail
      (TrainExamples.ofList [1]) (some [2]) true (some exPredict) none
      0 (0 : ℚ)).2.dump = some DumpOutcome.wrotePickle ∧
    (Trainer.fitEpoch exTrainEpoch exEvalLossPass exJsonOk
      (TrainExamples.ofList [1]) (some [2]) true (some exPredict) none
      0 (0 : ℚ)).2.dump = some DumpOutcome.wroteJson ∧
    (Trainer.fit exTrainEpoch exEvalLossPass exJsonFail 2
      (TrainExamples.ofList [1]) (some [2]) true (some exPredict) none
      (0 : ℚ)).2.length = 2 :=
  ⟨(eval_results_serialization_fallback exTrainEpoch exEvalLossPass exJsonFail
      2 (TrainExamples.ofList [1]) [2] true exPredict none 0 0 0).1 rfl,
   (eval_results_serialization_fallback exTrainEpoch exEvalLossPass exJsonOk
      2 (TrainExamples.ofList [1]) [2] true exPredict none 0 0 0).2.1
      (by simp [exJsonOk]),
   (eval_results_serialization_fallback exTrainEpoch exEvalLossPass exJsonFail
      2 (TrainExamples.ofList [1]) [2] true exPredict none 0 0 0).2.2⟩

/-- **C9**: When `eval_examples` is `None`, every epoch of `Trainer.fit`
logs the informational message and continues: the loop completes all
`n_epochs` epochs, each epoch's record is exactly the informational log with
no evaluation output, and no failure occurs. -/
theorem fit_missing_eval_nonfatal {σ : Type}
    (trainEpoch : σ → List ℚ → σ) (eval_loss_pass : σ → List ℚ → ℚ)
    (json_dump : List (ℚ × ℚ) → Option Unit) (n_epochs : ℕ)
    (train_examples : TrainExamples) (eval_examples : Option (List ℚ))
    (eval_loss_flag : Bool) (eval_predictor : Option (σ → List ℚ → List ℚ))
    (eval_metric_fn : Option (List (ℚ × ℚ) → List ℚ)) (st : σ)
    (h : eval_examples = none) :
    (Trainer.fit trainEpoch eval_loss_pass json_dump n_epochs train_examples
      eval_examples eval_loss_flag eval_predictor eval_metric_fn
      st).2.length = n_epochs ∧
    ∀ r ∈ (Trainer.fit trainEpoch eval_loss_pass json_dump n_epochs
      train_examples eval_examples eval_loss_flag eval_predictor
      eval_metric_fn st).2,
      r = { logs := [LogMsg.noEvalInfo], dump := none } := by
  subst h
  have hrec := fitFrom_none_records trainEpoch eval_loss_pass json_dump
    train_examples eval_loss_flag eval_predictor eval_metric_fn n_epochs 0 st
  constructor
  · show (Trainer.fitFrom trainEpoch eval_loss_pass json_dump train_examples
      none eval_loss_flag eval_predictor eval_metric_fn
      n_epochs 0 st).2.length = n_epochs
    rw [hrec, List.length_replicate]
  · intro r hr
    rw [show (Trainer.fit trainEpoch eval_loss_pass json_dump n_epochs
      train_examples none eval_loss_flag eval_predictor eval_metric_fn
      st).2 = _ from hrec] at hr
    exact List.eq_of_mem_replicate hr

/-- Witness for the C9 theorem: a concrete 2-epoch fit with no evaluation
set. -/
theorem fit_missing_eval_nonfatal_witness :
    (none : Option (List ℚ)) = none ∧
    ((Trainer.fit exTrainEpoch exEvalLossPass exJsonOk 2
        (TrainExamples.ofList [1]) none true none none (0 : ℚ)).2.length = 2 ∧
     ∀ r ∈ (Trainer.fit exTrainEpoch exEvalLossPass exJsonOk 2
        (TrainExamples.ofList [1]) none true none none (0 : ℚ)).2,
       r = { logs := [LogMsg.noEvalInfo], dump := none }) :=
  ⟨rfl, fit_missing_eval_nonfatal exTrainEpoch exEvalLossPass exJsonOk 2
    (TrainExamples.ofList [1]) none true none none 0 rfl⟩

/-- **C10**: `process_to_deliver` inverts `process_to_run_model`: with a
mesh configured both operations are the identity, and with no mesh
`unreplicate` inverts `replicate` (given at least one local device), so the
round trip returns the original value in every mode. -/
theorem process_run_deliver_roundtrip (d : Deployer) (env : JaxEnv)
    (x : NDArr) (h : 1 ≤ env.local_device_count) :
    d.process_to_deliver (d.process_to_run_model env x) = some x ∧
    (∀ m, d.mesh = some m →
      d.process_to_run_model env x = x ∧
      d.process_to_deliver x = some x) := by
  obtain ⟨k, hk⟩ : ∃ k, env.local_device_count = k + 1 :=
    ⟨env.local_device_count - 1, by omega⟩
  constructor
  · cases hm : d.mesh with
    | none =>
        simp [Deployer.process_to_run_model, Deployer.process_to_deliver,
          hm, replicate, hk, List.replicate_succ, unreplicate]
    | some m =>
        simp [Deployer.process_to_run_model, Deployer.process_to_deliver, hm]
  · intro m hm
    simp [Deployer.process_to_run_model, Deployer.process_to_deliver, hm]

/-- Witness for the C10 theorem: a concrete round trip through a no-mesh
deployer with two local devices, and the identity behavior of a mesh
deployer. -/
theorem process_run_deliver_roundtrip_witness :
    (1 ≤ (2 : ℕ)) ∧
    (Deployer.init 0 (some ⟨4⟩)).mesh = some ⟨4⟩ ∧
    (Deployer.init 0 none).process_to_deliver
      ((Deployer.init 0 none).process_to_run_model ⟨2, 1⟩ (.scalar 5)) =
      some (.scalar 5) ∧
    (Deployer.init 0 (some ⟨4⟩)).process_to_run_model ⟨2, 1⟩ (.scalar 5) =
      .scalar 5 ∧
    (Deployer.init 0 (some ⟨4⟩)).process_to_deliver (.scalar 5) =
      some (.scalar 5) :=
  ⟨by decide, rfl,
   (process_run_deliver_roundtrip (Deployer.init 0 none) ⟨2, 1⟩
     (.scalar 5) (by decide)).1,
   ((process_run_deliver_roundtrip (Deployer.init 0 (some ⟨4⟩)) ⟨2, 1⟩
     (.scalar 5) (by decide)).2 ⟨4⟩ rfl).1,
   ((process_run_deliver_roundtrip (Deployer.init 0 (some ⟨4⟩)) ⟨2, 1⟩
     (.scalar 5) (by decide)).2 ⟨4⟩ rfl).2⟩

/-- **C2**: `run_model_step(step_fn, input_args)` executes `step_fn` as a
replicated parallel map when no mesh is configured and as a mesh-context
single logical call when one is; composed with the deployer's input/output
processing (`process_to_run_model` / `process_to_deliver`), the caller
obtains the identical result `step_fn input` in both modes. -/
theorem run_model_step_mode_transparent
    (env : JaxEnv) (f : NDArr → NDArr) (x : NDArr) (d₁ d₂ : Deployer)
    (m : Mesh) (h : 1 ≤ env.local_device_count)
    (h₁ : d₁.mesh = none) (h₂ : d₂.mesh = some m) :
    (d₁.run_model_step f (d₁.process_to_run_model env x)).bind
      d₁.process_to_deliver = some (f x) ∧
    (d₂.run_model_step f (d₂.process_to_run_model env x)).bind
      d₂.process_to_deliver = some (f x) := by
  obtain ⟨k, hk⟩ : ∃ k, env.local_device_count = k + 1 :=
    ⟨env.local_device_count - 1, by omega⟩
  constructor
  · simp [Deployer.process_to_run_model, Deployer.run_model_step,
      Deployer.process_to_deliver, h₁, replicate, hk, List.replicate_succ,
      pmapApply, unreplicate]
  · simp [Deployer.process_to_run_model, Deployer.run_model_step,
      Deployer.process_to_deliver, h₂]

/-- Witness for the C2 theorem: a concrete step function and input run
through a no-mesh deployer (two local devices) and a mesh deployer, with the
caller seeing the same result in both modes. -/
theorem run_model_step_mode_transparent_witness :
    (1 ≤ (2 : ℕ)) ∧
    (Deployer.init 0 none).mesh = none ∧
    (Deployer.init 0 (some ⟨4⟩)).mesh = some ⟨4⟩ ∧
    ((Deployer.init 0 none).run_model_step exStepFn
        ((Deployer.init 0 none).process_to_run_model ⟨2, 1⟩
          (.scalar 3))).bind (Deployer.init 0 none).process_to_deliver =
      some (exStepFn (.scalar 3)) ∧
    ((Deployer.init 0 (some ⟨4⟩)).run_model_step exStepFn
        ((Deployer.init 0 (some ⟨4⟩)).process_to_run_model ⟨2, 1⟩
          (.scalar 3))).bind
        (Deployer.init 0 (some ⟨4⟩)).process_to_deliver =
      some (exStepFn (.scalar 3)) :=
  ⟨by decide, rfl, rfl,
   (run_model_step_mode_transparent ⟨2, 1⟩ exStepFn (.scalar 3)
     (Deployer.init 0 none) (Deployer.init 0 (some ⟨4⟩)) ⟨4⟩
     (by decide) rfl rfl).1,
   (run_model_step_mode_transparent ⟨2, 1⟩ exStepFn (.scalar 3)
     (Deployer.init 0 none) (Deployer.init 0 (some ⟨4⟩)) ⟨4⟩
     (by decide) rfl rfl).2⟩

end Redco
